import Mathlib

/-!
Shallow embedding of the tokenizer and recursive-descent expression/type
grammar of the clickhouse-sql-parser core (files `parser/lexer.go` and
`parser/parser_column.go`), together with theorems checking the
natural-language specification against this code.

Conventions of the embedding:
* The Go `Lexer` holds a read-only `input string` plus a cursor and a cached
  last token.  The input never changes, so it is passed as an explicit
  read-only `List Char` parameter and the mutable part is the `LexState`
  structure (cursor + cached token).  Positions are character offsets (the
  inputs of interest are ASCII, where Go's byte offsets coincide).
* Go methods that mutate the receiver and return `error` become functions
  `LexState → LexState × Option String` (post-state plus optional error).
* The `for` loop of `consumeMultiLineComment` has a loop condition that does
  not depend on the loop variable; it genuinely diverges on some inputs, so
  that loop is embedded with an explicit fuel argument, `none` meaning that
  the loop did not finish.  Every terminating run of that loop performs at
  most `input.length + 2` iterations (the `break` needs `cur+i+1 <
  input.length`), so the canonical fuel used by the scanner captures exactly
  the terminating runs.
* Go `panic` situations (nil-pointer dereferences) are embedded as `none`
  (abnormal, non-value outcome), distinct from ordinary parse errors.
-/

/-- Token kinds, mirroring the `TokenKind` string constants of `lexer.go`. -/
def TokenEOF : String := "<eof>"

/-- Kind of identifier tokens. -/
def TokenIdent : String := "<ident>"

/-- Kind of keyword tokens. -/
def TokenKeyword : String := "<keyword>"

/-- Kind of integer literal tokens. -/
def TokenInt : String := "<int>"

/-- Kind of float literal tokens. -/
def TokenFloat : String := "<float>"

/-- Kind of string literal tokens. -/
def TokenString : String := "<string>"

/-- Kind of the `::` cast operator token. -/
def TokenCast : String := "<cast>"

/-- Kind of the `->` arrow operator token. -/
def TokenArrow : String := "<arrow>"

/-- The backquote character, written via its code point. -/
def backquoteChar : Char := Char.ofNat 96

/-- The single-quote character, written via its code point. -/
def squoteChar : Char := Char.ofNat 39

/-- The double-quote character, written via its code point. -/
def dquoteChar : Char := Char.ofNat 34

/-- A scanned token: position span, kind, raw text, numeric base and the
quoted-identifier flag, mirroring `Token` in `lexer.go` (`Base` is the zero
value `0` for non-numeric tokens, as in Go). -/
structure Token where
  pos : Nat
  endP : Nat
  kind : String
  str : String
  base : Nat
  unquoted : Bool
deriving Repr, DecidableEq

/-- The mutable part of the Go `Lexer`: cursor offset and cached last token.
The read-only `input` is passed separately to every function. -/
structure LexState where
  current : Nat
  lastToken : Option Token
deriving Repr, DecidableEq

/-- Character lookup at an absolute offset (Go `l.input[i]`; out-of-range
reads never occur on the guarded paths and default to the NUL character). -/
def charAt (input : List Char) (n : Nat) : Char :=
  input.getD n (Char.ofNat 0)

/-- Substring `l.input[current+i : current+j]` of `Lexer.slice`. -/
def lexSlice (input : List Char) (cur i j : Nat) : String :=
  String.mk ((input.drop (cur + i)).take (j - i))

/-- Whitespace test used by `skipSpace` (the ASCII and Latin-1 part of Go's
`unicode.IsSpace`; all inputs considered here are ASCII). -/
def isSpaceChar (c : Char) : Bool :=
  c = ' ' || c = Char.ofNat 9 || c = Char.ofNat 10 || c = Char.ofNat 11 ||
    c = Char.ofNat 12 || c = Char.ofNat 13 || c = Char.ofNat 133 || c = Char.ofNat 160

/-- Decimal digit test (Go `IsDigit` from the repository's helpers, which are
not under `src/`; modelled from the spec's "digit run in the selected
base"). -/
def isDigitChar (c : Char) : Bool :=
  '0' ≤ c && c ≤ '9'

/-- Hexadecimal digit test (Go `IsHexDigit`). -/
def isHexDigitChar (c : Char) : Bool :=
  isDigitChar c || ('a' ≤ c && c ≤ 'f') || ('A' ≤ c && c ≤ 'F')

/-- Modelled from the spec: identifier-start test (Go `IsIdentStart`, not
under `src/`): an ASCII letter or underscore. -/
def isIdentStart (c : Char) : Bool :=
  ('a' ≤ c && c ≤ 'z') || ('A' ≤ c && c ≤ 'Z') || c = '_'

/-- Modelled from the spec: identifier-continuation test (Go `IsIdentPart`):
identifier-start characters or digits. -/
def isIdentPart (c : Char) : Bool :=
  isIdentStart c || isDigitChar c

/-- ASCII upper-casing of a string (Go `strings.ToUpper` restricted to the
ASCII identifiers that occur here). -/
def toUpperStr (s : String) : String :=
  String.mk (s.data.map Char.toUpper)

/-- Case-insensitive string equality (Go `strings.EqualFold` on ASCII). -/
def eqFold (a b : String) : Bool :=
  toUpperStr a == toUpperStr b

/-- Modelled from the spec: the fixed, case-insensitive keyword table (the
table itself lives outside `src/`); it contains the reserved words consulted
by the embedded grammar. -/
def keywords : List String :=
  ["AND", "OR", "NOT", "IS", "NULL", "IN", "LIKE", "ILIKE", "GLOBAL", "AS",
   "CASE", "WHEN", "THEN", "ELSE", "END", "CAST", "EXTRACT", "INTERVAL",
   "DATE", "TIMESTAMP", "SELECT", "DISTINCT", "FROM", "CODEC", "COMMENT",
   "DEFAULT", "MATERIALIZED", "ALIAS"]

/-- Modelled from the spec: the fixed, case-insensitive interval-unit table
queried by `INTERVAL` and `EXTRACT`. -/
def intervalUnits : List String :=
  ["SECOND", "MINUTE", "HOUR", "DAY", "WEEK", "MONTH", "QUARTER", "YEAR"]

/-- Countdown-structured loop of `Lexer.skipSpace`.  The loop body runs only
while `cur < input.length` and increments `cur`, so it iterates at most
`input.length` times; the countdown `n` is a structural bound that the
caller instantiates with `input.length`, making the budget unreachable. -/
def skipSpaceAux (input : List Char) (cur n : Nat) : Nat :=
  match n with
  | 0 => cur
  | n + 1 =>
    if cur < input.length then
      if isSpaceChar (charAt input cur) then skipSpaceAux input (cur + 1) n else cur
    else cur

/-- Loop of `Lexer.skipSpace`: advance the cursor over whitespace. -/
def skipSpace (input : List Char) (cur : Nat) : Nat :=
  skipSpaceAux input cur input.length

/-- Go `consumeSingleLineComment`: skip `--`, then everything up to and
including the next CR/LF (or end of input), returning the new cursor. -/
def consumeSingleLineComment (input : List Char) (cur : Nat) : Nat :=
  let i := ((input.drop (cur + 2)).takeWhile
    (fun ch => ¬ (ch = Char.ofNat 13) ∧ ¬ (ch = Char.ofNat 10))).length
  cur + 2 + i + 1

/-- The scan loop of Go `consumeMultiLineComment`, fuel-indexed.  The Go loop
is `for !l.isEOF() { if l.peekOk(i+1) && l.peekN(i)=='*' && l.peekN(i+1)=='/'
{ i += 2; break }; i++ }`; its condition reads only the (constant) cursor, so
the loop diverges whenever no `*∕` closer exists and the cursor is still in
range.  `none` means the loop did not finish within `fuel` iterations. -/
def mlcLoop (input : List Char) (cur i fuel : Nat) : Option Nat :=
  match fuel with
  | 0 => none
  | fuel + 1 =>
    if cur < input.length then
      if cur + i + 1 < input.length ∧ charAt input (cur + i) = '*' ∧
          charAt input (cur + i + 1) = '/' then
        some (i + 2)
      else mlcLoop input cur (i + 1) fuel
    else some i

/-- Go `consumeMultiLineComment`: skip `/*`, run the scan loop, then skip `i`
characters.  Fuel `input.length + 2` captures every terminating run of the
loop (a `break` needs `cur + i + 1 < input.length`, so at most
`input.length + 1` iterations precede it); `none` therefore means the Go
loop runs forever. -/
def consumeMultiLineComment (input : List Char) (cur : Nat) : Option Nat :=
  (mlcLoop input (cur + 2) 0 (input.length + 2)).map (fun i => cur + 2 + i)

/-- Loop of Go `skipComments`, fuel-indexed: alternately skip `--` comments,
`/* */` comments and CR/LF until none applies.  Each iteration either
returns or advances the cursor, so fuel `input.length + 1` (used by
`consumeToken`) captures every run in which the multi-line-comment loop
itself terminates. -/
def skipCommentsLoop (input : List Char) (cur fuel : Nat) : Option Nat :=
  match fuel with
  | 0 => none
  | fuel + 1 =>
    if cur < input.length then
      let c := charAt input cur
      if c = '-' then
        if cur + 1 < input.length ∧ charAt input (cur + 1) = '-' then
          skipCommentsLoop input (consumeSingleLineComment input cur) fuel
        else some cur
      else if c = '/' then
        if cur + 1 < input.length ∧ charAt input (cur + 1) = '*' then
          match consumeMultiLineComment input cur with
          | none => none
          | some cur2 => skipCommentsLoop input cur2 fuel
        else some cur
      else if c = Char.ofNat 13 ∨ c = Char.ofNat 10 then
        skipCommentsLoop input (cur + 1) fuel
      else some cur
    else some cur

/-- The scan loop of Go `consumeNumber`: starting at relative offset `i`,
consume digits of the selected base, dots, and (for base 10) one exponent
marker with optional sign and at least one digit.  Returns the final offset,
the token kind, and whether the loop body ran at least once
(`hasNumberPart`).  The optional-sign branch of the exponent is unrolled
into the two explicit cases.  Every iteration requires `cur + i <
input.length` and increments `i`, so the loop runs at most
`input.length + 1` times; the structural countdown `n` is instantiated with
`input.length + 2` by `consumeNumber`, making the `none` (budget exhausted)
outcome unreachable. -/
def numLoop (input : List Char) (cur base : Nat) (hasExp hasNum : Bool)
    (kind : String) (i n : Nat) : Option (Except String (Nat × String × Bool)) :=
  match n with
  | 0 => none
  | n + 1 =>
    if cur + i < input.length then
      let c := charAt input (cur + i)
      if base = 10 ∧ isDigitChar c then
        numLoop input cur base hasExp true kind (i + 1) n
      else if base = 16 ∧ isHexDigitChar c then
        numLoop input cur base hasExp true kind (i + 1) n
      else if c = '.' then
        numLoop input cur base hasExp true TokenFloat (i + 1) n
      else if ¬ base = 16 ∧ (c = 'e' ∨ c = 'E' ∨ c = 'p' ∨ c = 'P') then
        if hasExp then some (Except.error "invalid number")
        else if cur + i + 1 < input.length ∧
            (charAt input (cur + i + 1) = '+' ∨ charAt input (cur + i + 1) = '-') then
          if cur + i + 2 < input.length ∧ isDigitChar (charAt input (cur + i + 2)) then
            numLoop input cur base true true kind (i + 2) n
          else some (Except.error "exponent part should contain at least one digit")
        else
          if cur + i + 1 < input.length ∧ isDigitChar (charAt input (cur + i + 1)) then
            numLoop input cur base true true kind (i + 1) n
          else some (Except.error "exponent part should contain at least one digit")
      else some (Except.ok (i, kind, true))
    else some (Except.ok (i, kind, hasNum))

/-- Go `consumeNumber`: optional sign, optional `0x` prefix (checked against
the first character, exactly as in the source), the scan loop, then the
trailing-identifier-start and zero-digit checks.  On error the state is
unchanged (Go returns before any `skipN`). -/
def consumeNumber (input : List Char) (st : LexState) : Option (LexState × Option String) :=
  let cur := st.current
  let c0 := charAt input cur
  let sign := c0 = '+' ∨ c0 = '-'
  let hex := c0 = '0' ∧ cur + 1 < input.length ∧ charAt input (cur + 1) = 'x'
  let base : Nat := if hex then 16 else 10
  let i0 : Nat := if sign then 1 else if hex then 2 else 0
  match numLoop input cur base false false TokenInt i0 (input.length + 2) with
  | none => none
  | some (Except.error e) => some (st, some e)
  | some (Except.ok (i, kind, hasNum)) =>
    if (cur + i < input.length ∧ isIdentPart (charAt input (cur + i))) ∨ ¬ hasNum then
      some (st, some "invalid number")
    else
      some (⟨cur + i, some ⟨cur, cur + i, kind, lexSlice input cur 0 i, base, false⟩⟩, none)

/-- Go `consumeIdent`: backquote-quoted raw identifiers (never keywords,
`Unquoted` flag set — the source calls this flag `isUnquoted`) or unquoted
identifiers with an optional leading `$`, classified as keyword when the
upper-cased text is in the keyword table.  On the unterminated-quote error
the opening backquote has already been skipped, exactly as in the source. -/
def consumeIdent (input : List Char) (st : LexState) : LexState × Option String :=
  let isUnquoted := st.current < input.length ∧ charAt input st.current = backquoteChar
  let cur := if isUnquoted then st.current + 1 else st.current
  if isUnquoted then
    let i := ((input.drop cur).takeWhile (fun ch => ¬ (ch = backquoteChar))).length
    if cur + i < input.length then
      (⟨cur + i + 1, some ⟨cur, cur + i, TokenIdent, lexSlice input cur 0 i, 0, true⟩⟩, none)
    else
      (⟨cur, st.lastToken⟩, some ("unclosed quoted identifier: " ++ lexSlice input cur 0 i))
  else
    let i0 : Nat := if charAt input cur = '$' then 1 else 0
    let i := i0 + ((input.drop (cur + i0)).takeWhile isIdentPart).length
    let slice := lexSlice input cur 0 i
    let kind := if keywords.contains (toUpperStr slice) then TokenKeyword else TokenIdent
    (⟨cur + i, some ⟨cur, cur + i, kind, slice, 0, false⟩⟩, none)

/-- Go `consumeString`: raw scan from the opening quote to the matching
quote, no escape processing; unterminated strings are an error (state
unchanged, as in the source). -/
def consumeString (isSingleQuote : Bool) (input : List Char) (st : LexState) :
    LexState × Option String :=
  let endChar := if isSingleQuote then squoteChar else dquoteChar
  let cur := st.current
  let i := 1 + ((input.drop (cur + 1)).takeWhile (fun ch => ¬ (ch = endChar))).length
  if cur + i < input.length then
    (⟨cur + i + 1, some ⟨cur + 1, cur + i, TokenString, lexSlice input cur 1 i, 0, false⟩⟩, none)
  else (st, some "invalid string")

/-- The code after the `switch` of Go `consumeToken` (from line `// The
subsequent lastToken after the dot should be an Ident.`): the bare-dot
follow check, identifier start, or a single-character punctuation token. -/
def afterSwitch (input : List Char) (st : LexState) : LexState × Option String :=
  let c := charAt input st.current
  let dotBefore : Bool :=
    match st.lastToken with
    | some t => t.kind == "."
    | none => false
  if dotBefore ∧ ¬ isIdentStart c then
    (st, some "quote should follow with an Ident")
  else if isIdentStart c then consumeIdent input st
  else
    (⟨st.current + 1,
      some ⟨st.current, st.current + 1, String.mk [c], String.mk [c], 0, false⟩⟩, none)

/-- Go `consumeToken`: skip whitespace, clear the cached last token, skip
comments and whitespace, then dispatch on the first character: paired
two-character operators, signed numbers or arrows after `+`/`-`, numbers,
quoted or `$` identifiers, strings, `::`, the dot rules, and finally
`afterSwitch`.  The outer `none` means the comment skipper diverged. -/
def consumeToken (input : List Char) (st : LexState) : Option (LexState × Option String) :=
  let cur0 := skipSpace input st.current
  match skipCommentsLoop input cur0 (input.length + 1) with
  | none => none
  | some cur1 =>
    let cur := skipSpace input cur1
    let st1 : LexState := ⟨cur, none⟩
    if input.length ≤ cur then some (st1, none)
    else
      let c := charAt input cur
      let ok1 := cur + 1 < input.length
      let c1 := charAt input (cur + 1)
      if c = '>' ∨ c = '<' ∨ c = '!' ∨ c = '=' ∨ c = '|' then
        if (c = '|' ∧ ok1 ∧ c1 = '|') ∨ (c = '<' ∧ ok1 ∧ c1 = '>') ∨
            (c = '=' ∧ ok1 ∧ c1 = '=') ∨ (¬ c = '|' ∧ ok1 ∧ c1 = '=') then
          some (⟨cur + 2, some ⟨cur, cur + 2, lexSlice input cur 0 2,
            lexSlice input cur 0 2, 0, false⟩⟩, none)
        else some (afterSwitch input st1)
      else if c = '+' ∨ c = '-' then
        if ok1 ∧ isDigitChar c1 then consumeNumber input st1
        else if ok1 ∧ c1 = '>' then
          some (⟨cur + 2, some ⟨cur, cur + 2, TokenArrow, lexSlice input cur 0 2, 0, false⟩⟩,
            none)
        else some (afterSwitch input st1)
      else if isDigitChar c then consumeNumber input st1
      else if c = backquoteChar ∨ c = '$' then some (consumeIdent input st1)
      else if c = squoteChar then some (consumeString true input st1)
      else if c = dquoteChar then some (consumeString false input st1)
      else if c = ':' then
        if ok1 ∧ c1 = ':' then
          some (⟨cur + 2, some ⟨cur, cur + 2, TokenCast, lexSlice input cur 0 2, 0, false⟩⟩,
            none)
        else some (afterSwitch input st1)
      else if c = '.' then
        if ok1 ∧ isDigitChar c1 then consumeNumber input st1
        else
          match st1.lastToken with
          | some t =>
            if ¬ t.kind = TokenIdent then
              some (st1, some "dot should be after an Ident")
            else some (afterSwitch input st1)
          | none => some (afterSwitch input st1)
      else some (afterSwitch input st1)

/-- Go `peekToken`: checkpoint cursor and cached token, scan one token, then
restore — but, exactly as in the source, the early `return nil, err` on a
scan error skips the restore. -/
def peekToken (input : List Char) (st : LexState) :
    Option (LexState × Except String (Option Token)) :=
  match consumeToken input st with
  | none => none
  | some (st2, some e) => some (st2, Except.error e)
  | some (st2, none) => some (⟨st.current, st.lastToken⟩, Except.ok st2.lastToken)

/-- Go `Lexer.isEOF`. -/
def lexIsEOF (input : List Char) (st : LexState) : Bool :=
  input.length ≤ st.current

/-- Keyword string constants of the grammar (`KeywordAnd` etc.; the constant
file is not under `src/`, values are the obvious upper-case words used
throughout `parser_column.go`). -/
def KeywordAnd : String := "AND"

/-- Keyword constant `OR`. -/
def KeywordOr : String := "OR"

/-- Keyword constant `NOT`. -/
def KeywordNot : String := "NOT"

/-- Keyword constant `IS`. -/
def KeywordIs : String := "IS"

/-- Keyword constant `NULL`. -/
def KeywordNull : String := "NULL"

/-- Keyword constant `IN`. -/
def KeywordIn : String := "IN"

/-- Keyword constant `LIKE`. -/
def KeywordLike : String := "LIKE"

/-- Keyword constant `ILIKE`. -/
def KeywordIlike : String := "ILIKE"

/-- Keyword constant `GLOBAL`. -/
def KeywordGlobal : String := "GLOBAL"

/-- Keyword constant `AS`. -/
def KeywordAs : String := "AS"

/-- Keyword constant `INTERVAL`. -/
def KeywordInterval : String := "INTERVAL"

/-- Keyword constant `DATE`. -/
def KeywordDate : String := "DATE"

/-- Keyword constant `TIMESTAMP`. -/
def KeywordTimestamp : String := "TIMESTAMP"

/-- Keyword constant `CAST`. -/
def KeywordCast : String := "CAST"

/-- Keyword constant `CASE`. -/
def KeywordCase : String := "CASE"

/-- Keyword constant `WHEN`. -/
def KeywordWhen : String := "WHEN"

/-- Keyword constant `THEN`. -/
def KeywordThen : String := "THEN"

/-- Keyword constant `ELSE`. -/
def KeywordElse : String := "ELSE"

/-- Keyword constant `END`. -/
def KeywordEnd : String := "END"

/-- Keyword constant `EXTRACT`. -/
def KeywordExtract : String := "EXTRACT"

/-- Keyword constant `FROM`. -/
def KeywordFrom : String := "FROM"

/-- Keyword constant `SELECT`. -/
def KeywordSelect : String := "SELECT"

/-- Keyword constant `DISTINCT`. -/
def KeywordDistinct : String := "DISTINCT"

/-- Operator-kind constant `+` (`opTypePlus` and friends live in a file not
under `src/`; the values are the literal operator strings). -/
def opTypePlus : String := "+"

/-- Operator-kind constant `-`. -/
def opTypeMinus : String := "-"

/-- Operator-kind constant `*`. -/
def opTypeMul : String := "*"

/-- Operator-kind constant `/`. -/
def opTypeDiv : String := "/"

/-- Operator-kind constant `%`. -/
def opTypeMod : String := "%"

/-- Operator-kind constant `=`. -/
def opTypeEQ : String := "="

/-- Operator-kind constant `<`. -/
def opTypeLT : String := "<"

/-- Operator-kind constant `<=`. -/
def opTypeLE : String := "<="

/-- Operator-kind constant `>=`. -/
def opTypeGE : String := ">="

/-- Operator-kind constant `>`. -/
def opTypeGT : String := ">"

/-- Operator-kind constant `!=`. -/
def opTypeNE : String := "!="

/-- Operator-kind constant `==`. -/
def opTypeDoubleEQ : String := "=="

/-- Operator-kind constant `?`. -/
def opTypeQuery : String := "?"

/-- Operator tag of `OR` nodes (`opTypeOr`). -/
def opTypeOr : String := "OR"

/-- Operator tag of `AND` nodes (`opTypeAnd`). -/
def opTypeAnd : String := "AND"

/-- Identifier AST node (`Ident` with `NamePos`, `NameEnd`, `Name`). -/
structure Ident where
  namePos : Nat
  nameEnd : Nat
  name : String
deriving Repr, DecidableEq

/-- Number literal AST node (`NumberLiteral`). -/
structure NumberLit where
  numPos : Nat
  numEnd : Nat
  lit : String
  base : Nat
deriving Repr, DecidableEq

/-- String literal AST node (`StringLiteral`). -/
structure StringLit where
  litPos : Nat
  litEnd : Nat
  lit : String
deriving Repr, DecidableEq

/-- The expression/type AST: one variant per Go node struct built by
`parser_column.go`.  List-valued nodes (`ColumnExprList`, `ParamExprList`,
`ColumnArgList`, `ArrayParamList`) are themselves expressions, as in Go. -/
inductive Expr where
  | identE (id : Ident)
  | numberE (n : NumberLit)
  | stringE (s : StringLit)
  | binary (left : Expr) (op : String) (right : Expr) (hasNot hasGlobal : Bool)
  | notE (notPos : Nat) (e : Expr)
  | isNullE (isPos : Nat) (e : Expr)
  | isNotNullE (isPos : Nat) (e : Expr)
  | aliasE (aliasPos : Nat) (e : Expr) (aliasName : Ident)
  | ternary (cond tru fls : Expr)
  | unary (unaryPos : Nat) (kind : String) (e : Expr)
  | caseE (casePos : Nat) (subject : Expr) (whens : List (Nat × Nat × Expr × Expr))
      (elsePos : Option Nat) (elseE : Option Expr)
  | castE (castPos asPos : Nat) (e : Expr) (asType : Expr)
  | extractE (extractPos : Nat) (unit : Ident) (fromPos : Nat) (fromE : Expr)
  | intervalE (intervalPos : Nat) (e : Expr) (unit : Ident)
  | functionE (name : Ident) (params : Expr)
  | columnExprList (listPos listEnd : Nat) (hasDistinct : Bool) (items : List Expr)
  | paramExprList (lparen rparen : Nat) (items : Expr) (colArgs : Option Expr)
  | columnArgList (lparen rparen : Nat) (distinct : Bool) (items : List Expr)
  | arrayParamList (lbracket rbracket : Nat) (items : Expr)
  | objectParams (obj : Expr) (params : Expr)
  | scalarType (name : Ident)
  | complexType (lparen rparen : Nat) (name : Ident) (params : List Expr)
  | typeWithParams (name : Ident) (lparen rparen : Nat) (params : List Expr)
  | nestedType (lparen rparen : Nat) (name : Ident) (columns : List (Ident × Expr))
  | enumListE (listPos listEnd : Nat) (enums : List (StringLit × NumberLit))
deriving Repr

/-- Modelled from the spec: the `End()` span accessor of AST nodes (the AST
method file is not under `src/`); used only by the expression-list parser to
record the end of its last item. -/
def Expr.endPos : Expr → Nat
  | .identE id => id.nameEnd
  | .numberE n => n.numEnd
  | .stringE s => s.litEnd
  | .binary _ _ r _ _ => r.endPos
  | .notE _ e => e.endPos
  | .isNullE _ e => e.endPos
  | .isNotNullE _ e => e.endPos
  | .aliasE _ _ a => a.nameEnd
  | .ternary _ _ f => f.endPos
  | .unary _ _ e => e.endPos
  | .caseE p _ _ _ _ => p
  | .castE _ _ _ t => t.endPos
  | .extractE _ _ _ e => e.endPos
  | .intervalE _ _ u => u.nameEnd
  | .functionE _ p => p.endPos
  | .columnExprList _ le _ _ => le
  | .paramExprList _ rp _ _ => rp + 1
  | .columnArgList _ rp _ _ => rp + 1
  | .arrayParamList _ rb _ => rb + 1
  | .objectParams _ p => p.endPos
  | .scalarType n => n.nameEnd
  | .complexType _ rp _ _ => rp + 1
  | .typeWithParams _ _ rp _ => rp + 1
  | .nestedType _ rp _ _ => rp + 1
  | .enumListE _ le _ => le

/-- Result type of parser functions: `none` is an abnormal outcome (fuel
exhaustion standing for divergence, or a Go panic), `Except.error` an
ordinary parse error, `Except.ok` a node plus the parser state after it. -/
def PRes (α : Type) : Type :=
  Option (Except String (α × LexState))

/-- Successful parser result. -/
def pok {α : Type} (a : α) (st : LexState) : PRes α :=
  some (Except.ok (a, st))

/-- Parse-error result. -/
def perr {α : Type} (msg : String) : PRes α :=
  some (Except.error msg)

/-- Sequencing of parser results. -/
def pbind {α β : Type} (x : PRes α) (f : α → LexState → PRes β) : PRes β :=
  match x with
  | none => none
  | some (Except.error e) => some (Except.error e)
  | some (Except.ok (a, st)) => f a st

/-- Go `Parser.lastTokenKind` (not under `src/`, modelled from the spec's
"errors embed the offending token's kind"): the cached token's kind, or the
end-of-input kind. -/
def lastTokenKind (st : LexState) : String :=
  match st.lastToken with
  | some t => t.kind
  | none => TokenEOF

/-- Go `Parser.matchTokenKind`: the cached token exists and has this kind. -/
def matchTokenKind (kind : String) (st : LexState) : Bool :=
  match st.lastToken with
  | some t => t.kind == kind
  | none => false

/-- Go `Parser.matchKeyword`: the cached token is a keyword whose text
equals `kw` case-insensitively. -/
def matchKeyword (kw : String) (st : LexState) : Bool :=
  match st.lastToken with
  | some t => t.kind == TokenKeyword && eqFold t.str kw
  | none => false

/-- Go `_ = p.lexer.consumeToken()`: advance the scanner, discarding any
scan error but keeping the post-scan state (as the source does). -/
def advance (input : List Char) (st : LexState) : Option LexState :=
  (consumeToken input st).map Prod.fst

/-- Go `Parser.Pos` (not under `src/`; modelled from the spec's span
bookkeeping): position of the cached token, or the cursor at end of
input. -/
def pPos (st : LexState) : Nat :=
  match st.lastToken with
  | some t => t.pos
  | none => st.current

/-- Go `Parser.tryConsumeKeyword`: on a keyword match, consume and return
the matched token, else return `nil` and leave the state unchanged. -/
def tryConsumeKeyword (kw : String) (input : List Char) (st : LexState) :
    Option (Option Token × LexState) :=
  if matchKeyword kw st then (advance input st).map (fun st2 => (st.lastToken, st2))
  else some (none, st)

/-- Go `Parser.tryConsumeTokenKind`: on a kind match, consume and return the
matched token, else return `nil` and leave the state unchanged. -/
def tryConsumeTokenKind (kind : String) (input : List Char) (st : LexState) :
    Option (Option Token × LexState) :=
  if matchTokenKind kind st then (advance input st).map (fun st2 => (st.lastToken, st2))
  else some (none, st)

/-- Go `Parser.consumeTokenKind` (not under `src/`; modelled from its call
sites, which require the matched token to be consumed): error unless the
cached token has this kind, else consume and return it. -/
def consumeTokenKind (kind : String) (input : List Char) (st : LexState) :
    Option (Except String (Token × LexState)) :=
  match st.lastToken with
  | some t =>
    if t.kind == kind then (advance input st).map (fun st2 => Except.ok (t, st2))
    else some (Except.error ("expected token kind " ++ kind ++ ", got " ++ t.kind))
  | none => some (Except.error ("expected token kind " ++ kind ++ ", got " ++ TokenEOF))

/-- Go `Parser.consumeKeyword` (not under `src/`; modelled like
`consumeTokenKind`, with the case-insensitive keyword match). -/
def consumeKeyword (kw : String) (input : List Char) (st : LexState) :
    Option (Except String LexState) :=
  if matchKeyword kw st then (advance input st).map Except.ok
  else some (Except.error ("expected keyword " ++ kw ++ ", got " ++ lastTokenKind st))

/-- Go `Parser.parseIdent` (not under `src/`; modelled from the spec: an
identifier token becomes an `Ident` node and is consumed). -/
def parseIdentP (input : List Char) (st : LexState) : PRes Ident :=
  match st.lastToken with
  | some t =>
    if t.kind == TokenIdent then
      (advance input st).map (fun st2 => Except.ok (⟨t.pos, t.endP, t.str⟩, st2))
    else perr ("expected token kind <ident>, got " ++ t.kind)
  | none => perr ("expected token kind <ident>, got " ++ TokenEOF)

/-- Go `Parser.parseNumber` (not under `src/`; modelled from the spec:
an integer or float literal token becomes a `NumberLiteral` and is
consumed). -/
def parseNumberP (input : List Char) (st : LexState) : PRes NumberLit :=
  match st.lastToken with
  | some t =>
    if t.kind == TokenInt || t.kind == TokenFloat then
      (advance input st).map (fun st2 => Except.ok (⟨t.pos, t.endP, t.str, t.base⟩, st2))
    else perr ("expected token kind <int>, got " ++ t.kind)
  | none => perr ("expected token kind <int>, got " ++ TokenEOF)

/-- Go `Parser.parseString` (not under `src/`; modelled from the spec: a
string token becomes a `StringLiteral` and is consumed). -/
def parseStringP (input : List Char) (st : LexState) : PRes StringLit :=
  match st.lastToken with
  | some t =>
    if t.kind == TokenString then
      (advance input st).map (fun st2 => Except.ok (⟨t.pos, t.endP, t.str⟩, st2))
    else perr ("expected token kind <string>, got " ++ t.kind)
  | none => perr ("expected token kind <string>, got " ++ TokenEOF)

/-- Go `Parser.parseLiteral` (not under `src/`; modelled from the spec's
"comma-separated list of literal values (string/number)"). -/
def parseLiteralP (input : List Char) (st : LexState) : PRes Expr :=
  match st.lastToken with
  | some t =>
    if t.kind == TokenString then
      pbind (parseStringP input st) (fun s st2 => pok (Expr.stringE s) st2)
    else if t.kind == TokenInt || t.kind == TokenFloat then
      pbind (parseNumberP input st) (fun n st2 => pok (Expr.numberE n) st2)
    else perr ("unexpected literal token kind: " ++ t.kind)
  | none => perr ("unexpected literal token kind: " ++ TokenEOF)

/-- Go `parseColumnStar`: consume `*` and return a wildcard identifier at
the given position. -/
def parseColumnStarP (pos : Nat) (input : List Char) (st : LexState) : PRes Ident :=
  match consumeTokenKind "*" input st with
  | none => none
  | some (Except.error e) => perr e
  | some (Except.ok (_, st2)) => pok ⟨pos, pos, "*"⟩ st2

/-- Modelled from the spec: the external statement parser invoked for
`(SELECT …)` sub-queries; an opaque collaborator outside this core, so its
invocation is represented by an error result. -/
def parseSelectQuery (input : List Char) (st : LexState) : PRes Expr :=
  let _ := input
  let _ := st
  perr "subquery parsing is delegated to the external statement parser"

/-- The ordered comparison-operator match of `parseCompareExpr` (the empty
`case` arms of the Go `switch` that fall through to the shared operator
handling). -/
def isCompareOpMatch (st : LexState) : Bool :=
  matchTokenKind opTypeEQ st || matchTokenKind opTypeLT st || matchTokenKind opTypeLE st ||
    matchTokenKind opTypeGE st || matchTokenKind opTypeGT st ||
    matchTokenKind opTypeDoubleEQ st || matchTokenKind opTypeNE st ||
    matchTokenKind "<>" st || matchTokenKind opTypeQuery st ||
    matchKeyword KeywordIn st || matchKeyword KeywordLike st || matchKeyword KeywordIlike st

/-- Sequencing with a `consumeKeyword`-style result. -/
def kbind {β : Type} (x : Option (Except String LexState)) (f : LexState → PRes β) : PRes β :=
  match x with
  | none => none
  | some (Except.error e) => perr e
  | some (Except.ok st) => f st

/-- Sequencing with a `tryConsume…`-style result. -/
def tbind {β : Type} (x : Option (Option Token × LexState)) (f : Option Token → LexState → PRes β) :
    PRes β :=
  match x with
  | none => none
  | some (t, st) => f t st

/-- Sequencing with an `advance`-style result. -/
def abind {β : Type} (x : Option LexState) (f : LexState → PRes β) : PRes β :=
  match x with
  | none => none
  | some st => f st

/-- Tail of Go `parseColumnExprListWithTerm`: build the `ColumnExprList`,
its end position taken from the last item (or `pos` when empty). -/
def columnListFinish (pos : Nat) (hasDistinct : Bool) (acc : List Expr) (st : LexState) :
    PRes Expr :=
  let listEnd := match acc.getLast? with
    | some e => e.endPos
    | none => pos
  pok (Expr.columnExprList pos listEnd hasDistinct acc) st

/-- Tail of Go `parseColumnArgList`: record the right-paren position,
consume `)` and build the `ColumnArgList`. -/
def columnArgFinish (pos : Nat) (distinct : Bool) (acc : List Expr) (input : List Char)
    (st : LexState) : PRes Expr :=
  let rp := pPos st
  pbind (consumeTokenKind ")" input st) fun _ st2 =>
    pok (Expr.columnArgList pos rp distinct acc) st2

/-- Tail of Go `parseComplexType`: record the right-paren position, consume
`)` and build the `ComplexTypeExpr`. -/
def complexFinish (name : Ident) (pos : Nat) (acc : List Expr) (input : List Char)
    (st : LexState) : PRes Expr :=
  let rp := pPos st
  pbind (consumeTokenKind ")" input st) fun _ st2 =>
    pok (Expr.complexType pos rp name acc) st2

/-- Tail of Go `parseEnumExpr`: set the list end from the last value (zero
when empty, the Go zero value), consume `)` and build the list node. -/
def enumFinish (pos : Nat) (acc : List (StringLit × NumberLit)) (input : List Char)
    (st : LexState) : PRes Expr :=
  let le := match acc.getLast? with
    | some p => p.2.numEnd
    | none => 0
  pbind (consumeTokenKind ")" input st) fun _ st2 =>
    pok (Expr.enumListE pos le acc) st2

/-- Tail of Go `parseColumnTypeWithParams`: record the right-paren position,
consume `)` and build the `TypeWithParamsExpr`. -/
def typeParamsFinish (name : Ident) (pos : Nat) (acc : List Expr) (input : List Char)
    (st : LexState) : PRes Expr :=
  let rp := pPos st
  pbind (consumeTokenKind ")" input st) fun _ st2 =>
    pok (Expr.typeWithParams name pos rp acc) st2

/-- Go `parseEnumValueExpr`, exactly as in `parser_column.go`: first
`consumeTokenKind(TokenString)` (which consumes the string token), then
`parseString`, then `consumeTokenKind("=")`, then `parseNumber`. -/
def parseEnumValueExprP (input : List Char) (st : LexState) : PRes (StringLit × NumberLit) :=
  pbind (consumeTokenKind TokenString input st) fun _ st2 =>
    pbind (parseStringP input st2) fun name st3 =>
      pbind (consumeTokenKind "=" input st3) fun _ st4 =>
        pbind (parseNumberP input st4) fun value st5 =>
          pok (name, value) st5

set_option maxHeartbeats 2000000 in
mutual

/-- Go `parseExpr`: one full expression, optionally followed by
`AS <identifier>` producing an alias node.  All grammar functions take a
fuel argument (first); every nested call uses one unit less, and `none`
reports fuel exhaustion (the mutual recursion of the Go original is
unbounded on adversarial inputs, so totality is obtained by fuel). -/
def parseExpr : Nat → Nat → List Char → LexState → PRes Expr
  | 0, _, _, _ => none
  | fuel + 1, pos, input, st =>
    let _ := pos
    pbind (parseOrExpr fuel pos input st) fun orExpr st =>
      if matchKeyword KeywordAs st then
        let aliasPos := pPos st
        abind (advance input st) fun st =>
          pbind (parseIdentP input st) fun asIdent st =>
            pok (Expr.aliasE aliasPos orExpr asIdent) st
      else pok orExpr st
termination_by structural fuel => fuel

/-- Go `parseOrExpr`: an `AND`-level operand followed by the `OR` chain. -/
def parseOrExpr : Nat → Nat → List Char → LexState → PRes Expr
  | 0, _, _, _ => none
  | fuel + 1, pos, input, st =>
    pbind (parseAndExpr fuel pos input st) fun expr st =>
      parseOrLoop fuel expr input st
termination_by structural fuel => fuel

/-- The `for` loop of Go `parseOrExpr`. -/
def parseOrLoop : Nat → Expr → List Char → LexState → PRes Expr
  | 0, _, _, _ => none
  | fuel + 1, expr, input, st =>
    tbind (tryConsumeKeyword KeywordOr input st) fun orTok st =>
      match orTok with
      | none => pok expr st
      | some _ =>
        pbind (parseAndExpr fuel (pPos st) input st) fun right st =>
          parseOrLoop fuel (Expr.binary expr opTypeOr right false false) input st
termination_by structural fuel => fuel

/-- Go `parseAndExpr`: a `NOT`-level operand followed by the `AND` chain. -/
def parseAndExpr : Nat → Nat → List Char → LexState → PRes Expr
  | 0, _, _, _ => none
  | fuel + 1, pos, input, st =>
    pbind (parseNotExpr fuel pos input st) fun expr st =>
      parseAndLoop fuel expr input st
termination_by structural fuel => fuel

/-- The `for` loop of Go `parseAndExpr`. -/
def parseAndLoop : Nat → Expr → List Char → LexState → PRes Expr
  | 0, _, _, _ => none
  | fuel + 1, expr, input, st =>
    tbind (tryConsumeKeyword KeywordAnd input st) fun andTok st =>
      match andTok with
      | none => pok expr st
      | some _ =>
        pbind (parseNotExpr fuel (pPos st) input st) fun right st =>
          parseAndLoop fuel (Expr.binary expr opTypeAnd right false false) input st
termination_by structural fuel => fuel

/-- Go `parseNotExpr`: right-recursive prefix `NOT`, else fall through to
the is-null level. -/
def parseNotExpr : Nat → Nat → List Char → LexState → PRes Expr
  | 0, _, _, _ => none
  | fuel + 1, pos, input, st =>
    tbind (tryConsumeKeyword KeywordNot input st) fun notTok st =>
      match notTok with
      | none => parseIsOrNotNull fuel (pPos st) input st
      | some _ =>
        pbind (parseNotExpr fuel (pPos st) input st) fun notExpr st =>
          pok (Expr.notE pos notExpr) st
termination_by structural fuel => fuel

/-- Go `parseIsOrNotNull`: a compare-level operand, optionally followed by
`IS [NOT] NULL`. -/
def parseIsOrNotNull : Nat → Nat → List Char → LexState → PRes Expr
  | 0, _, _, _ => none
  | fuel + 1, pos, input, st =>
    pbind (parseCompareExpr fuel (pPos st) input st) fun expr st =>
      tbind (tryConsumeKeyword KeywordIs input st) fun isTok st =>
        match isTok with
        | none => pok expr st
        | some _ =>
          tbind (tryConsumeKeyword KeywordNot input st) fun isNotTok st =>
            kbind (consumeKeyword KeywordNull input st) fun st =>
              match isNotTok with
              | some _ => pok (Expr.isNotNullE pos expr) st
              | none => pok (Expr.isNullE pos expr) st
termination_by structural fuel => fuel

/-- Go `parseCompareExpr`: an add/sub-level operand, then at most one of the
postfix `[...]` subscript, a comparison operator, `IN`/`LIKE`/`ILIKE`,
`GLOBAL` (consumed, setting the global flag, with no check on what
follows), or `NOT` (consumed, requiring `IN`/`LIKE`/`ILIKE` to follow). -/
def parseCompareExpr : Nat → Nat → List Char → LexState → PRes Expr
  | 0, _, _, _ => none
  | fuel + 1, pos, input, st =>
    pbind (parseAddSubExpr fuel pos input st) fun expr st =>
      if matchTokenKind "[" st then
        pbind (parseArrayParams fuel pos input st) fun params st =>
          pok (Expr.objectParams expr params) st
      else if isCompareOpMatch st then
        compareTail fuel false false expr input st
      else if matchKeyword KeywordGlobal st then
        abind (advance input st) fun st =>
          compareTail fuel false true expr input st
      else if matchKeyword KeywordNot st then
        abind (advance input st) fun st =>
          if matchKeyword KeywordIn st || matchKeyword KeywordLike st ||
              matchKeyword KeywordIlike st then
            compareTail fuel true false expr input st
          else perr ("expected IN, LIKE or ILIKE after NOT, got " ++ lastTokenKind st)
      else pok expr st
termination_by structural fuel => fuel

/-- The shared tail of Go `parseCompareExpr` after its `switch`: upper-case
the current token's text as the operator (a nil cached token makes the Go
code dereference nil, embedded as `none`), consume it, parse the right
operand at add/sub level and build the binary node with the flags. -/
def compareTail : Nat → Bool → Bool → Expr → List Char → LexState → PRes Expr
  | 0, _, _, _, _, _ => none
  | fuel + 1, hasNot, hasGlobal, expr, input, st =>
    match st.lastToken with
    | none => none
    | some t =>
      abind (advance input st) fun st =>
        pbind (parseAddSubExpr fuel (pPos st) input st) fun right st =>
          pok (Expr.binary expr (toUpperStr t.str) right hasNot hasGlobal) st
termination_by structural fuel => fuel

/-- Go `parseAddSubExpr`: a mul/div/mod-level operand followed by the
`+`/`-` chain. -/
def parseAddSubExpr : Nat → Nat → List Char → LexState → PRes Expr
  | 0, _, _, _ => none
  | fuel + 1, pos, input, st =>
    pbind (parseMulDivModExpr fuel pos input st) fun expr st =>
      parseAddSubLoop fuel expr input st
termination_by structural fuel => fuel

/-- The `for` loop of Go `parseAddSubExpr`. -/
def parseAddSubLoop : Nat → Expr → List Char → LexState → PRes Expr
  | 0, _, _, _ => none
  | fuel + 1, expr, input, st =>
    if matchTokenKind opTypePlus st || matchTokenKind opTypeMinus st then
      let op := lastTokenKind st
      abind (advance input st) fun st =>
        pbind (parseMulDivModExpr fuel (pPos st) input st) fun right st =>
          parseAddSubLoop fuel (Expr.binary expr op right false false) input st
    else pok expr st
termination_by structural fuel => fuel

/-- Go `parseTernaryExpr`: `? <expr> : <expr>` after an already-parsed
condition. -/
def parseTernaryExpr : Nat → Expr → List Char → LexState → PRes Expr
  | 0, _, _, _ => none
  | fuel + 1, condition, input, st =>
    pbind (consumeTokenKind "?" input st) fun _ st =>
      pbind (parseExpr fuel (pPos st) input st) fun trueExpr st =>
        pbind (consumeTokenKind ":" input st) fun _ st =>
          pbind (parseExpr fuel (pPos st) input st) fun falseExpr st =>
            pok (Expr.ternary condition trueExpr falseExpr) st
termination_by structural fuel => fuel

/-- Go `parseMulDivModExpr`: a unary-level operand followed by the
`*`/`/`/`%`/`->`/`::` chain, switching to ternary mode on `?`. -/
def parseMulDivModExpr : Nat → Nat → List Char → LexState → PRes Expr
  | 0, _, _, _ => none
  | fuel + 1, pos, input, st =>
    pbind (parseUnaryExpr fuel pos input st) fun expr st =>
      parseMulDivLoop fuel expr input st
termination_by structural fuel => fuel

/-- The `for` loop of Go `parseMulDivModExpr`. -/
def parseMulDivLoop : Nat → Expr → List Char → LexState → PRes Expr
  | 0, _, _, _ => none
  | fuel + 1, expr, input, st =>
    if matchTokenKind opTypeQuery st then
      parseTernaryExpr fuel expr input st
    else if matchTokenKind opTypeMul st || matchTokenKind opTypeDiv st ||
        matchTokenKind opTypeMod st || matchTokenKind TokenArrow st ||
        matchTokenKind TokenCast st then
      let op := lastTokenKind st
      abind (advance input st) fun st =>
        pbind (parseUnaryExpr fuel (pPos st) input st) fun right st =>
          parseMulDivLoop fuel (Expr.binary expr op right false false) input st
    else pok expr st
termination_by structural fuel => fuel

/-- Go `parseUnaryExpr`: optional prefix `+`/`-`/`NOT`; after a consumed
prefix, an identifier or `(` re-enters the full grammar, anything else
parses a primary expression. -/
def parseUnaryExpr : Nat → Nat → List Char → LexState → PRes Expr
  | 0, _, _, _ => none
  | fuel + 1, pos, input, st =>
    if matchTokenKind opTypePlus st || matchTokenKind opTypeMinus st ||
        matchKeyword KeywordNot st then
      let kindTok := lastTokenKind st
      abind (advance input st) fun st =>
        let inner : PRes Expr :=
          if matchTokenKind TokenIdent st || matchTokenKind "(" st then
            parseExpr fuel (pPos st) input st
          else parseColumnExpr fuel (pPos st) input st
        pbind inner fun e st => pok (Expr.unary pos kindTok e) st
    else parseColumnExpr fuel pos input st
termination_by structural fuel => fuel

/-- Go `parseColumnExpr`: the primary-expression dispatch on the current
token. -/
def parseColumnExpr : Nat → Nat → List Char → LexState → PRes Expr
  | 0, _, _, _ => none
  | fuel + 1, pos, input, st =>
    if matchKeyword KeywordInterval st then parseColumnExprInterval fuel pos input st
    else if matchKeyword KeywordDate st || matchKeyword KeywordTimestamp st then
      match peekToken input st with
      | none => none
      | some (_, Except.error e) => perr e
      | some (st, Except.ok nextToken) =>
        match nextToken with
        | none => none
        | some nt =>
          if nt.kind == TokenString then
            pbind (parseStringP input st) fun s st => pok (Expr.stringE s) st
          else parseIdentOrFunction fuel pos input st
    else if matchKeyword KeywordCast st then parseColumnCastExpr fuel pos input st
    else if matchKeyword KeywordCase st then parseColumnCaseExpr fuel pos input st
    else if matchKeyword KeywordExtract st then parseColumnExtractExpr fuel pos input st
    else if matchTokenKind TokenIdent st then parseIdentOrFunction fuel pos input st
    else if matchTokenKind TokenString st then
      pbind (parseStringP input st) fun s st => pok (Expr.stringE s) st
    else if matchTokenKind TokenInt st || matchTokenKind TokenFloat st then
      pbind (parseNumberP input st) fun n st => pok (Expr.numberE n) st
    else if matchTokenKind "(" st then
      match peekToken input st with
      | none => none
      | some (st, r) =>
        let peek : Option Token := match r with
          | Except.ok t => t
          | Except.error _ => none
        if (match peek with
            | some pk => pk.kind == TokenKeyword && eqFold pk.str KeywordSelect
            | none => false) then
          parseSelectQuery input st
        else parseFunctionParams fuel pos input st
    else if matchTokenKind "*" st then
      pbind (parseColumnStarP pos input st) fun id st => pok (Expr.identE id) st
    else if matchTokenKind "[" st then
      parseArrayParams fuel pos input st
    else perr ("unexpected token kind: " ++ lastTokenKind st)
termination_by structural fuel => fuel

/-- Go `parseColumnExprInterval`: `INTERVAL <expr> <unit>` with the unit
checked against the interval-unit table. -/
def parseColumnExprInterval : Nat → Nat → List Char → LexState → PRes Expr
  | 0, _, _, _ => none
  | fuel + 1, pos, input, st =>
    kbind (consumeKeyword KeywordInterval input st) fun st =>
      pbind (parseExpr fuel (pPos st) input st) fun columnExpr st =>
        pbind (parseIdentP input st) fun unit st =>
          if intervalUnits.contains (toUpperStr unit.name) then
            pok (Expr.intervalE pos columnExpr unit) st
          else perr ("unknown interval type: " ++ unit.name)
termination_by structural fuel => fuel

/-- Go `parseColumnCastExpr`: `CAST ( <expr> AS <type> )`. -/
def parseColumnCastExpr : Nat → Nat → List Char → LexState → PRes Expr
  | 0, _, _, _ => none
  | fuel + 1, pos, input, st =>
    kbind (consumeKeyword KeywordCast input st) fun st =>
      pbind (consumeTokenKind "(" input st) fun _ st =>
        pbind (parseExpr fuel (pPos st) input st) fun columnExpr st =>
          let asPos := pPos st
          kbind (consumeKeyword KeywordAs input st) fun st =>
            pbind (parseColumnType fuel (pPos st) input st) fun asType st =>
              pbind (consumeTokenKind ")" input st) fun _ st =>
                pok (Expr.castE pos asPos columnExpr asType) st
termination_by structural fuel => fuel

/-- Go `parseColumnCaseExpr`: `CASE <expr> (WHEN <expr> THEN <expr>)*
(ELSE <expr>)? END`. -/
def parseColumnCaseExpr : Nat → Nat → List Char → LexState → PRes Expr
  | 0, _, _, _ => none
  | fuel + 1, pos, input, st =>
    kbind (consumeKeyword KeywordCase input st) fun st =>
      pbind (parseExpr fuel (pPos st) input st) fun subject st =>
        pbind (parseCaseWhenLoop fuel [] input st) fun whens st =>
          tbind (tryConsumeKeyword KeywordElse input st) fun elseTok st =>
            match elseTok with
            | some tokE =>
              pbind (parseExpr fuel (pPos st) input st) fun elseExpr st =>
                kbind (consumeKeyword KeywordEnd input st) fun st =>
                  pok (Expr.caseE pos subject whens (some tokE.pos) (some elseExpr)) st
            | none =>
              kbind (consumeKeyword KeywordEnd input st) fun st =>
                pok (Expr.caseE pos subject whens none none) st
termination_by structural fuel => fuel

/-- The `WHEN … THEN …` loop of Go `parseColumnCaseExpr`. -/
def parseCaseWhenLoop : Nat → List (Nat × Nat × Expr × Expr) → List Char → LexState →
    PRes (List (Nat × Nat × Expr × Expr))
  | 0, _, _, _ => none
  | fuel + 1, acc, input, st =>
    if matchKeyword KeywordWhen st then
      let whenPos := pPos st
      abind (advance input st) fun st =>
        pbind (parseExpr fuel (pPos st) input st) fun whenCond st =>
          let thenPos := pPos st
          kbind (consumeKeyword KeywordThen input st) fun st =>
            pbind (parseExpr fuel (pPos st) input st) fun thenCond st =>
              parseCaseWhenLoop fuel (acc ++ [(whenPos, thenPos, whenCond, thenCond)]) input st
    else pok acc st
termination_by structural fuel => fuel

/-- Go `parseColumnExtractExpr`: `EXTRACT ( <unit> FROM <expr> )`, the unit
checked against the interval-unit table (the closing parenthesis is consumed
with `consumeKeyword`, exactly as in the source). -/
def parseColumnExtractExpr : Nat → Nat → List Char → LexState → PRes Expr
  | 0, _, _, _ => none
  | fuel + 1, pos, input, st =>
    kbind (consumeKeyword KeywordExtract input st) fun st =>
      pbind (consumeTokenKind "(" input st) fun _ st =>
        pbind (parseIdentP input st) fun unit st =>
          if intervalUnits.contains (toUpperStr unit.name) then
            let fromPos := pPos st
            kbind (consumeKeyword KeywordFrom input st) fun st =>
              pbind (parseExpr fuel (pPos st) input st) fun fromExpr st =>
                kbind (consumeKeyword ")" input st) fun st =>
                  pok (Expr.extractE pos unit fromPos fromExpr) st
          else perr ("unknown interval type: " ++ unit.name)
termination_by structural fuel => fuel

/-- Modelled from the spec: a bare identifier, optionally followed by a
parenthesized argument list (function call, with its optional second
argument list handled by `parseFunctionParams`); the Go
`parseIdentOrFunction` is not under `src/`. -/
def parseIdentOrFunction : Nat → Nat → List Char → LexState → PRes Expr
  | 0, _, _, _ => none
  | fuel + 1, pos, input, st =>
    let _ := pos
    pbind (parseIdentP input st) fun id st =>
      if matchTokenKind "(" st then
        pbind (parseFunctionParams fuel (pPos st) input st) fun params st =>
          pok (Expr.functionE id params) st
      else pok (Expr.identE id) st
termination_by structural fuel => fuel

/-- Go `parseFunctionParams`: `( <expr-list> )`, optionally followed by a
second `( <arg-list> )` for parametric aggregate calls. -/
def parseFunctionParams : Nat → Nat → List Char → LexState → PRes Expr
  | 0, _, _, _ => none
  | fuel + 1, pos, input, st =>
    pbind (consumeTokenKind "(" input st) fun _ st =>
      pbind (parseColumnExprListWithTerm fuel ")" (pPos st) input st) fun params st =>
        let rp := pPos st
        pbind (consumeTokenKind ")" input st) fun _ st =>
          if matchTokenKind "(" st then
            pbind (parseColumnArgList fuel (pPos st) input st) fun cal st =>
              pok (Expr.paramExprList pos rp params (some cal)) st
          else pok (Expr.paramExprList pos rp params none) st
termination_by structural fuel => fuel

/-- Go `parseColumnArgList`: `( [DISTINCT] <expr> [, <expr>]* )`. -/
def parseColumnArgList : Nat → Nat → List Char → LexState → PRes Expr
  | 0, _, _, _ => none
  | fuel + 1, pos, input, st =>
    pbind (consumeTokenKind "(" input st) fun _ st =>
      tbind (tryConsumeKeyword KeywordDistinct input st) fun dTok st =>
        parseColumnArgLoop fuel pos dTok.isSome [] input st
termination_by structural fuel => fuel

/-- The item loop of Go `parseColumnArgList`. -/
def parseColumnArgLoop : Nat → Nat → Bool → List Expr → List Char → LexState → PRes Expr
  | 0, _, _, _, _, _ => none
  | fuel + 1, pos, distinct, acc, input, st =>
    if ¬ lexIsEOF input st ∧ ¬ matchTokenKind ")" st then
      pbind (parseExpr fuel (pPos st) input st) fun item st =>
        tbind (tryConsumeTokenKind "," input st) fun commaTok st =>
          match commaTok with
          | none => columnArgFinish pos distinct (acc ++ [item]) input st
          | some _ => parseColumnArgLoop fuel pos distinct (acc ++ [item]) input st
    else columnArgFinish pos distinct acc input st
termination_by structural fuel => fuel

/-- Go `parseColumnExprListWithTerm`: optional `DISTINCT`, then expressions
separated by commas until the terminator kind (when non-empty) or exhaustion. -/
def parseColumnExprListWithTerm : Nat → String → Nat → List Char → LexState → PRes Expr
  | 0, _, _, _, _ => none
  | fuel + 1, term, pos, input, st =>
    tbind (tryConsumeKeyword KeywordDistinct input st) fun dTok st =>
      parseColumnListLoop fuel term pos dTok.isSome [] input st
termination_by structural fuel => fuel

/-- The item loop of Go `parseColumnExprListWithTerm` (loop condition
`!p.lexer.isEOF() || p.last() != nil`, terminator check first). -/
def parseColumnListLoop : Nat → String → Nat → Bool → List Expr → List Char → LexState →
    PRes Expr
  | 0, _, _, _, _, _, _ => none
  | fuel + 1, term, pos, hasDistinct, acc, input, st =>
    if ¬ lexIsEOF input st ∨ st.lastToken.isSome then
      if ¬ term = "" ∧ matchTokenKind term st then columnListFinish pos hasDistinct acc st
      else
        pbind (parseColumnsExpr fuel pos input st) fun columnExpr st =>
          tbind (tryConsumeTokenKind "," input st) fun commaTok st =>
            match commaTok with
            | none => columnListFinish pos hasDistinct (acc ++ [columnExpr]) st
            | some _ => parseColumnListLoop fuel term pos hasDistinct (acc ++ [columnExpr]) input st
    else columnListFinish pos hasDistinct acc st
termination_by structural fuel => fuel

/-- Go `parseArrayParams`: `[ <expr-list> ]`. -/
def parseArrayParams : Nat → Nat → List Char → LexState → PRes Expr
  | 0, _, _, _ => none
  | fuel + 1, pos, input, st =>
    pbind (consumeTokenKind "[" input st) fun _ st =>
      pbind (parseColumnExprListWithTerm fuel "]" (pPos st) input st) fun params st =>
        let rb := pPos st
        pbind (consumeTokenKind "]" input st) fun _ st =>
          pok (Expr.arrayParamList pos rb params) st
termination_by structural fuel => fuel

/-- Go `parseColumnsExpr`: delegates to `parseExpr`. -/
def parseColumnsExpr : Nat → Nat → List Char → LexState → PRes Expr
  | 0, _, _, _ => none
  | fuel + 1, pos, input, st => parseExpr fuel pos input st
termination_by structural fuel => fuel

/-- Go `parseColumnType`: `<identifier> ['(' <type-args> ')']`; without
parentheses a bare scalar type, otherwise the first inner token selects the
nested, complex, enum or parametric form. -/
def parseColumnType : Nat → Nat → List Char → LexState → PRes Expr
  | 0, _, _, _ => none
  | fuel + 1, pos, input, st =>
    let _ := pos
    pbind (parseIdentP input st) fun ident st =>
      tbind (tryConsumeTokenKind "(" input st) fun lparenTok st =>
        match lparenTok with
        | none => pok (Expr.scalarType ident) st
        | some _ =>
          if matchTokenKind TokenIdent st then
            if ident.name == "Nested" then parseNestedType fuel ident (pPos st) input st
            else parseComplexType fuel ident (pPos st) input st
          else if matchTokenKind TokenString st then
            match peekToken input st with
            | none => none
            | some (st, r) =>
              match r with
              | Except.ok nextTok =>
                match nextTok with
                | none => none
                | some nt =>
                  if nt.kind == "=" then parseEnumExpr fuel (pPos st) input st
                  else parseColumnTypeWithParams fuel ident (pPos st) input st
              | Except.error _ => parseColumnTypeWithParams fuel ident (pPos st) input st
          else if matchTokenKind TokenInt st then
            parseColumnTypeWithParams fuel ident (pPos st) input st
          else perr ("unexpected token kind: " ++ lastTokenKind st)
termination_by structural fuel => fuel

/-- Go `parseComplexType`: a comma-separated list of type expressions inside
the parentheses. -/
def parseComplexType : Nat → Ident → Nat → List Char → LexState → PRes Expr
  | 0, _, _, _, _ => none
  | fuel + 1, name, pos, input, st => parseComplexLoop fuel name pos [] input st
termination_by structural fuel => fuel

/-- The item loop of Go `parseComplexType`. -/
def parseComplexLoop : Nat → Ident → Nat → List Expr → List Char → LexState → PRes Expr
  | 0, _, _, _, _, _ => none
  | fuel + 1, name, pos, acc, input, st =>
    if ¬ lexIsEOF input st ∧ ¬ matchTokenKind ")" st then
      pbind (parseColumnType fuel (pPos st) input st) fun subExpr st =>
        tbind (tryConsumeTokenKind "," input st) fun commaTok st =>
          match commaTok with
          | none => complexFinish name pos (acc ++ [subExpr]) input st
          | some _ => parseComplexLoop fuel name pos (acc ++ [subExpr]) input st
    else complexFinish name pos acc input st
termination_by structural fuel => fuel

/-- Go `parseEnumExpr`: a comma-separated list of enum value pairs. -/
def parseEnumExpr : Nat → Nat → List Char → LexState → PRes Expr
  | 0, _, _, _ => none
  | fuel + 1, pos, input, st => parseEnumLoop fuel pos [] input st

/-- The item loop of Go `parseEnumExpr`. -/
def parseEnumLoop : Nat → Nat → List (StringLit × NumberLit) → List Char → LexState → PRes Expr
  | 0, _, _, _, _ => none
  | fuel + 1, pos, acc, input, st =>
    if ¬ lexIsEOF input st ∧ ¬ matchTokenKind ")" st then
      pbind (parseEnumValueExprP input st) fun ev st =>
        tbind (tryConsumeTokenKind "," input st) fun commaTok st =>
          match commaTok with
          | none => enumFinish pos (acc ++ [ev]) input st
          | some _ => parseEnumLoop fuel pos (acc ++ [ev]) input st
    else enumFinish pos acc input st
termination_by structural fuel => fuel

/-- Go `parseColumnTypeWithParams`: a first literal, then further literals
while a comma is consumed (checking end of input first, as the source
does). -/
def parseColumnTypeWithParams : Nat → Ident → Nat → List Char → LexState → PRes Expr
  | 0, _, _, _, _ => none
  | fuel + 1, name, pos, input, st =>
    pbind (parseLiteralP input st) fun param st =>
      parseTypeParamsLoop fuel name pos [param] input st

/-- The literal loop of Go `parseColumnTypeWithParams`. -/
def parseTypeParamsLoop : Nat → Ident → Nat → List Expr → List Char → LexState → PRes Expr
  | 0, _, _, _, _, _ => none
  | fuel + 1, name, pos, acc, input, st =>
    if ¬ lexIsEOF input st then
      tbind (tryConsumeTokenKind "," input st) fun commaTok st =>
        match commaTok with
        | none => typeParamsFinish name pos acc input st
        | some _ =>
          pbind (parseLiteralP input st) fun size st =>
            parseTypeParamsLoop fuel name pos (acc ++ [size]) input st
    else typeParamsFinish name pos acc input st
termination_by structural fuel => fuel

/-- Go `parseNestedType`: delegate to the external column-definition-list
parser, then consume the closing parenthesis and wrap the columns. -/
def parseNestedType : Nat → Ident → Nat → List Char → LexState → PRes Expr
  | 0, _, _, _, _ => none
  | fuel + 1, name, pos, input, st =>
    pbind (parseTableColumnsP fuel input st) fun columns st =>
      let rp := pPos st
      pbind (consumeTokenKind ")" input st) fun _ st =>
        pok (Expr.nestedType pos rp name columns) st
termination_by structural fuel => fuel

/-- Modelled from the spec: the external column-definition-list parser used
inside `Nested(...)` (not under `src/`): `name type` pairs separated by
commas, consuming up to but not including the closing parenthesis. -/
def parseTableColumnsP : Nat → List Char → LexState → PRes (List (Ident × Expr))
  | 0, _, _ => none
  | fuel + 1, input, st => tableColsLoop fuel [] input st
termination_by structural fuel => fuel

/-- The column loop of the modelled external column-definition-list parser. -/
def tableColsLoop : Nat → List (Ident × Expr) → List Char → LexState →
    PRes (List (Ident × Expr))
  | 0, _, _, _ => none
  | fuel + 1, acc, input, st =>
    if lexIsEOF input st ∨ matchTokenKind ")" st then pok acc st
    else
      pbind (parseIdentP input st) fun colName st =>
        pbind (parseColumnType fuel (pPos st) input st) fun colType st =>
          tbind (tryConsumeTokenKind "," input st) fun commaTok st =>
            match commaTok with
            | none => pok (acc ++ [(colName, colType)]) st
            | some _ => tableColsLoop fuel (acc ++ [(colName, colType)]) input st
termination_by structural fuel => fuel

end

/-- Go `parseColumnExprListWithRoundBracket`. -/
def parseColumnExprListWithRoundBracket (fuel pos : Nat) (input : List Char) (st : LexState) :
    PRes Expr :=
  parseColumnExprListWithTerm fuel ")" pos input st

/-- Go `parseColumnExprListWithSquareBracket`. -/
def parseColumnExprListWithSquareBracket (fuel pos : Nat) (input : List Char) (st : LexState) :
    PRes Expr :=
  parseColumnExprListWithTerm fuel "]" pos input st

/-- Entry point for expression parsing from a source string: scan the first
token (the Go driver primes the one-token lookahead before calling
`parseExpr`), then run the grammar. -/
def parseExprFromString (s : String) (fuel : Nat) : PRes Expr :=
  let input := s.toList
  match consumeToken input ⟨0, none⟩ with
  | none => none
  | some (_, some e) => some (Except.error e)
  | some (st, none) => parseExpr fuel (pPos st) input st

/-- Entry point for type parsing from a source string, analogous to
`parseExprFromString`. -/
def parseColumnTypeFromString (s : String) (fuel : Nat) : PRes Expr :=
  let input := s.toList
  match consumeToken input ⟨0, none⟩ with
  | none => none
  | some (_, some e) => some (Except.error e)
  | some (st, none) => parseColumnType fuel (pPos st) input st

set_option maxHeartbeats 4000000 in
/-- Claim C1: operator precedence and left-associativity — `a AND b OR c`
parses as `Or(And(a,b),c)`, `a OR b AND c` parses as `Or(a, And(b,c))`, and
`1 + 2 * 3` parses as `Add(1, Mul(2,3))`. -/
theorem claim_C1_operator_precedence :
    parseExprFromString "a AND b OR c" 64 =
      some (Except.ok
        (Expr.binary
          (Expr.binary (Expr.identE ⟨0, 1, "a"⟩) opTypeAnd (Expr.identE ⟨6, 7, "b"⟩) false false)
          opTypeOr (Expr.identE ⟨11, 12, "c"⟩) false false,
         ⟨12, none⟩)) ∧
    parseExprFromString "a OR b AND c" 64 =
      some (Except.ok
        (Expr.binary (Expr.identE ⟨0, 1, "a"⟩) opTypeOr
          (Expr.binary (Expr.identE ⟨5, 6, "b"⟩) opTypeAnd (Expr.identE ⟨11, 12, "c"⟩) false false)
          false false,
         ⟨12, none⟩)) ∧
    parseExprFromString "1 + 2 * 3" 64 =
      some (Except.ok
        (Expr.binary (Expr.numberE ⟨0, 1, "1", 10⟩) opTypePlus
          (Expr.binary (Expr.numberE ⟨4, 5, "2", 10⟩) opTypeMul
            (Expr.numberE ⟨8, 9, "3", 10⟩) false false)
          false false,
         ⟨9, none⟩)) :=
  ⟨rfl, rfl, rfl⟩

set_option maxHeartbeats 4000000 in
/-- Claim C9: the scanner folds `-` immediately followed by a digit into a
signed numeric literal, so `parseExpr` on `1 -2` returns the integer
literal `1` and leaves the signed literal token `-2` unconsumed instead of
producing a subtraction. -/
theorem claim_C9_signed_literal_swallows_minus :
    parseExprFromString "1 -2" 64 =
      some (Except.ok
        (Expr.numberE ⟨0, 1, "1", 10⟩,
         ⟨4, some ⟨2, 4, TokenInt, "-2", 10, false⟩⟩)) :=
  rfl

set_option maxHeartbeats 4000000 in
/-- Claim C3 counterexample: scanning `1.2.3` does not produce a lexical
error; the scanner returns a single float token spanning both dots. -/
theorem claim_C3_counterexample :
    consumeToken (String.toList "1.2.3") ⟨0, none⟩ =
      some (⟨5, some ⟨0, 5, TokenFloat, "1.2.3", 10, false⟩⟩, none) :=
  rfl

set_option maxHeartbeats 4000000 in
/-- Claim C3 amended: the number scanner does not bound the number of dots —
each `.` merely switches the literal to float kind — so scanning `1.2.3`
succeeds with exactly one float token `1.2.3` spanning both dots, after
which the input is exhausted. -/
theorem claim_C3_amended_multi_dot_float :
    consumeToken (String.toList "1.2.3") ⟨0, none⟩ =
      some (⟨5, some ⟨0, 5, TokenFloat, "1.2.3", 10, false⟩⟩, none) ∧
    consumeToken (String.toList "1.2.3") ⟨5, some ⟨0, 5, TokenFloat, "1.2.3", 10, false⟩⟩ =
      some (⟨5, none⟩, none) :=
  ⟨rfl, rfl⟩

set_option maxHeartbeats 4000000 in
/-- Claim C5: the misplaced-dot checks of `consumeToken` never fire, because
`consumeToken` clears the cached last token to nil before reaching them, so
a `.` that is neither preceded by an identifier token nor followed by a
digit is scanned as an ordinary `.` punctuation token with no error — on
`.` alone, and on both tokens of `..`. -/
theorem claim_C5_dot_checks_unreachable :
    consumeToken (String.toList ".") ⟨0, none⟩ =
      some (⟨1, some ⟨0, 1, ".", ".", 0, false⟩⟩, none) ∧
    consumeToken (String.toList "..") ⟨0, none⟩ =
      some (⟨1, some ⟨0, 1, ".", ".", 0, false⟩⟩, none) ∧
    consumeToken (String.toList "..") ⟨1, some ⟨0, 1, ".", ".", 0, false⟩⟩ =
      some (⟨2, some ⟨1, 2, ".", ".", 0, false⟩⟩, none) :=
  ⟨rfl, rfl, rfl⟩

set_option maxHeartbeats 4000000 in
/-- Claim C8: the type-grammar dispatch of `parseColumnType` — a bare
identifier yields a scalar type; an identifier inside the parentheses
yields a nested type for the exact outer name `Nested` and otherwise a
complex type over recursively parsed sub-types; a string or integer inside
the parentheses yields a parametric type; any other leading inner token is
a syntax error; but the enum form (string followed by `=`) errors instead
of producing an enum node, because `parseEnumValueExpr` consumes the label
with `consumeTokenKind(TokenString)` and then `parseString` expects a
second string. -/
theorem claim_C8_type_dispatch :
    parseColumnTypeFromString "Int32" 64 =
      some (Except.ok (Expr.scalarType ⟨0, 5, "Int32"⟩, ⟨5, none⟩)) ∧
    parseColumnTypeFromString "Array(Int32)" 64 =
      some (Except.ok
        (Expr.complexType 6 11 ⟨0, 5, "Array"⟩ [Expr.scalarType ⟨6, 11, "Int32"⟩],
         ⟨12, none⟩)) ∧
    parseColumnTypeFromString "Nested(x Int32, y String)" 64 =
      some (Except.ok
        (Expr.nestedType 7 24 ⟨0, 6, "Nested"⟩
          [(⟨7, 8, "x"⟩, Expr.scalarType ⟨9, 14, "Int32"⟩),
           (⟨16, 17, "y"⟩, Expr.scalarType ⟨18, 24, "String"⟩)],
         ⟨25, none⟩)) ∧
    parseColumnTypeFromString "Datetime(\"UTC\")" 64 =
      some (Except.ok
        (Expr.typeWithParams ⟨0, 8, "Datetime"⟩ 10 14 [Expr.stringE ⟨10, 13, "UTC"⟩],
         ⟨15, none⟩)) ∧
    parseColumnTypeFromString "FixedString(16)" 64 =
      some (Except.ok
        (Expr.typeWithParams ⟨0, 11, "FixedString"⟩ 12 14 [Expr.numberE ⟨12, 14, "16", 10⟩],
         ⟨15, none⟩)) ∧
    parseColumnTypeFromString "Foo(*)" 64 =
      some (Except.error "unexpected token kind: *") ∧
    parseColumnTypeFromString "Enum8(\"a\"=1,\"b\"=2)" 64 =
      some (Except.error "expected token kind <string>, got =") :=
  ⟨rfl, rfl, rfl, rfl, rfl, rfl, rfl⟩

/-- Claim C2: the multi-line-comment scan loop does not terminate on an
unterminated `/*` comment with at least one character after the opener (for
example the input `/*x`): its loop condition reads only the constant
cursor, and the break condition is false at every offset, so the loop runs
forever (formally: it yields no result under any fuel), and the whole token
scan on that input has no result. -/
theorem claim_C2_unterminated_comment_diverges :
    (∀ fuel i : Nat, mlcLoop (String.toList "/*x") 2 i fuel = none) ∧
    consumeToken (String.toList "/*x") ⟨0, none⟩ = none := by
  constructor
  · intro fuel
    induction fuel with
    | zero => intro i; rfl
    | succ n ih =>
      intro i
      have h1 : (2 : Nat) < (String.toList "/*x").length := by decide
      have h2 : ¬ (2 + i + 1 < (String.toList "/*x").length ∧
          charAt (String.toList "/*x") (2 + i) = '*' ∧
          charAt (String.toList "/*x") (2 + i + 1) = '/') := by
        rintro ⟨hlt, -⟩
        have hlen : (String.toList "/*x").length = 3 := by decide
        omega
      simp only [mlcLoop, if_pos h1, if_neg h2]
      exact ih (i + 1)
  · rfl

set_option maxHeartbeats 1000000 in
/-- Claim C4 counterexample: `peekToken` is not side-effect-free on failure —
on the unterminated quoted identifier input (backquote then `x`) it returns
an error and leaves the cursor advanced past the opening backquote (1
instead of the original 0). -/
theorem claim_C4_counterexample :
    peekToken [backquoteChar, 'x'] ⟨0, none⟩ =
      some (⟨1, none⟩, Except.error "unclosed quoted identifier: x") ∧
    (1 : Nat) ≠ 0 :=
  ⟨rfl, by decide⟩

/-- Claim C4 amended: `peekToken` restores the cursor offset and the cached
last token whenever it returns successfully; on a scan error the restore is
skipped (see the counterexample). -/
theorem claim_C4_peek_restores_on_success (input : List Char) (st st2 : LexState)
    (r : Option Token) (h : peekToken input st = some (st2, Except.ok r)) :
    st2.current = st.current ∧ st2.lastToken = st.lastToken := by
  unfold peekToken at h
  cases hc : consumeToken input st with
  | none => rw [hc] at h; simp at h
  | some p =>
    obtain ⟨l2, err⟩ := p
    cases err with
    | some e => rw [hc] at h; simp at h
    | none =>
      rw [hc] at h
      simp only [Option.some.injEq, Prod.mk.injEq, Except.ok.injEq] at h
      rw [← h.1]
      exact ⟨rfl, rfl⟩

/-- Witness for the amended claim C4, at the concrete input `ab`. -/
theorem claim_C4_witness :
    (⟨0, none⟩ : LexState).current = (⟨0, none⟩ : LexState).current ∧
    (⟨0, none⟩ : LexState).lastToken = (⟨0, none⟩ : LexState).lastToken :=
  claim_C4_peek_restores_on_success (String.toList "ab") ⟨0, none⟩ ⟨0, none⟩
    (some ⟨0, 2, TokenIdent, "ab", 0, false⟩) rfl

/-- Claim C10: peek/next agreement — whenever `peekToken` succeeds with a
token `t`, the state it hands back is the original one, and an immediately
following `consumeToken` succeeds and caches a token equal to `t` (same
kind, text and span, being the same token). -/
theorem claim_C10_peek_next_agreement (input : List Char) (st st1 : LexState) (t : Token)
    (h : peekToken input st = some (st1, Except.ok (some t))) :
    st1 = st ∧ ∃ st2, consumeToken input st1 = some (st2, none) ∧ st2.lastToken = some t := by
  unfold peekToken at h
  cases hc : consumeToken input st with
  | none => rw [hc] at h; simp at h
  | some p =>
    obtain ⟨l2, err⟩ := p
    cases err with
    | some e => rw [hc] at h; simp at h
    | none =>
      rw [hc] at h
      simp only [Option.some.injEq, Prod.mk.injEq, Except.ok.injEq] at h
      have hst : st1 = st := by rw [← h.1]
      refine ⟨hst, l2, ?_, h.2⟩
      rw [hst, hc]

/-- Witness for claim C10, at the concrete input `ab`. -/
theorem claim_C10_witness :
    (⟨0, none⟩ : LexState) = (⟨0, none⟩ : LexState) ∧
    ∃ st2, consumeToken (String.toList "ab") ⟨0, none⟩ = some (st2, none) ∧
      st2.lastToken = some ⟨0, 2, TokenIdent, "ab", 0, false⟩ :=
  claim_C10_peek_next_agreement (String.toList "ab") ⟨0, none⟩ ⟨0, none⟩
    ⟨0, 2, TokenIdent, "ab", 0, false⟩ rfl

set_option maxHeartbeats 1000000 in
/-- Claim C6: at the comparison level, after the left operand, a consumed
keyword `NOT` must be followed by `IN`, `LIKE` or `ILIKE` — in those cases
`parseCompareExpr` builds a binary node carrying the not flag and that
operator, and for any other following token it returns an error. -/
theorem claim_C6_not_requires_in_like_ilike
    (fuel pos : Nat) (input : List Char) (st st1 st2 : LexState) (expr : Expr) (tk : Token)
    (hleft : parseAddSubExpr (fuel + 1) pos input st = some (Except.ok (expr, st1)))
    (htok : st1.lastToken = some tk)
    (hkind : tk.kind = TokenKeyword)
    (hstr : toUpperStr tk.str = "NOT")
    (hadv : advance input st1 = some st2) :
    ((matchKeyword KeywordIn st2 || matchKeyword KeywordLike st2 ||
        matchKeyword KeywordIlike st2) = false →
      parseCompareExpr (fuel + 2) pos input st =
        some (Except.error ("expected IN, LIKE or ILIKE after NOT, got " ++ lastTokenKind st2))) ∧
    (∀ tk2 : Token, st2.lastToken = some tk2 →
      (matchKeyword KeywordIn st2 || matchKeyword KeywordLike st2 ||
        matchKeyword KeywordIlike st2) = true →
      toUpperStr tk2.str ∈ (["IN", "LIKE", "ILIKE"] : List String) ∧
      ∀ (st3 st4 : LexState) (right : Expr),
        advance input st2 = some st3 →
        parseAddSubExpr fuel (pPos st3) input st3 = some (Except.ok (right, st4)) →
        parseCompareExpr (fuel + 2) pos input st =
          some (Except.ok (Expr.binary expr (toUpperStr tk2.str) right true false, st4))) := by
  have hmtk : ∀ k : String, matchTokenKind k st1 = (TokenKeyword == k) := by
    intro k; simp [matchTokenKind, htok, hkind]
  have hmkw : ∀ kw : String, matchKeyword kw st1 = eqFold tk.str kw := by
    intro kw; simp [matchKeyword, htok, hkind]
  have heq : ∀ kw : String, eqFold tk.str kw = ("NOT" == toUpperStr kw) := by
    intro kw; simp [eqFold, hstr]
  have hlb : matchTokenKind "[" st1 = false := by rw [hmtk]; decide
  have hop : isCompareOpMatch st1 = false := by
    simp only [isCompareOpMatch, hmtk, hmkw, heq]; decide
  have hglob : matchKeyword KeywordGlobal st1 = false := by rw [hmkw, heq]; decide
  have hnot : matchKeyword KeywordNot st1 = true := by rw [hmkw, heq]; decide
  have hmain : parseCompareExpr (fuel + 2) pos input st =
      (if (matchKeyword KeywordIn st2 || matchKeyword KeywordLike st2 ||
          matchKeyword KeywordIlike st2) = true then
        compareTail (fuel + 1) true false expr input st2
      else perr ("expected IN, LIKE or ILIKE after NOT, got " ++ lastTokenKind st2)) := by
    have e2 : fuel + 2 = (fuel + 1) + 1 := rfl
    rw [e2]
    simp only [parseCompareExpr, hleft, pbind, hlb, hop, hglob, hnot, hadv, abind,
      Bool.false_eq_true, if_false, if_true]
  constructor
  · intro hfalse
    rw [hmain, if_neg (by rw [hfalse]; exact Bool.false_ne_true)]
    rfl
  · intro tk2 htk2 htrue
    constructor
    · have h2 : (tk2.kind = TokenKeyword ∧ eqFold tk2.str KeywordIn = true) ∨
          (tk2.kind = TokenKeyword ∧ eqFold tk2.str KeywordLike = true) ∨
          (tk2.kind = TokenKeyword ∧ eqFold tk2.str KeywordIlike = true) := by
        simpa [matchKeyword, htk2, Bool.or_eq_true, or_assoc] using htrue
      rcases h2 with ⟨-, h3⟩ | ⟨-, h3⟩ | ⟨-, h3⟩ <;>
        · have h4 : toUpperStr tk2.str = toUpperStr _ :=
            eq_of_beq (by simpa [eqFold] using h3)
          rw [h4]
          decide
    · intro st3 st4 right hadv2 hright
      rw [hmain, if_pos htrue]
      simp only [compareTail, htk2, hadv2, abind, hright, pbind, pok]

set_option maxHeartbeats 4000000 in
/-- Witness for claim C6, at the concrete input `a NOT IN b`. -/
theorem claim_C6_witness :
    parseCompareExpr 64 0 (String.toList "a NOT IN b")
        ⟨1, some ⟨0, 1, TokenIdent, "a", 0, false⟩⟩ =
      some (Except.ok
        (Expr.binary (Expr.identE ⟨0, 1, "a"⟩) "IN" (Expr.identE ⟨9, 10, "b"⟩) true false,
         ⟨10, none⟩)) := by
  have h := claim_C6_not_requires_in_like_ilike 62 0 (String.toList "a NOT IN b")
    ⟨1, some ⟨0, 1, TokenIdent, "a", 0, false⟩⟩
    ⟨5, some ⟨2, 5, TokenKeyword, "NOT", 0, false⟩⟩
    ⟨8, some ⟨6, 8, TokenKeyword, "IN", 0, false⟩⟩
    (Expr.identE ⟨0, 1, "a"⟩) ⟨2, 5, TokenKeyword, "NOT", 0, false⟩
    rfl rfl rfl (by decide) rfl
  exact (h.2 ⟨6, 8, TokenKeyword, "IN", 0, false⟩ rfl (by decide)).2
    ⟨10, some ⟨9, 10, TokenIdent, "b", 0, false⟩⟩ ⟨10, none⟩ (Expr.identE ⟨9, 10, "b"⟩) rfl rfl

set_option maxHeartbeats 4000000 in
/-- Claim C7 counterexample: `GLOBAL` at the comparison level is not
required to be followed by `IN`/`LIKE`/`ILIKE` — on `a GLOBAL b c` the
parser succeeds and builds a binary node whose operator is `B` (the
upper-cased next token), which is none of `IN`, `LIKE`, `ILIKE`. -/
theorem claim_C7_counterexample :
    parseExprFromString "a GLOBAL b c" 64 =
      some (Except.ok
        (Expr.binary (Expr.identE ⟨0, 1, "a"⟩) "B" (Expr.identE ⟨11, 12, "c"⟩) false true,
         ⟨12, none⟩)) ∧
    ("B" : String) ∉ (["IN", "LIKE", "ILIKE"] : List String) :=
  ⟨rfl, by decide⟩

set_option maxHeartbeats 1000000 in
/-- Claim C7 amended: when `parseCompareExpr` consumes `GLOBAL` after its
left operand, it sets the global flag and unconditionally takes the next
token — whatever it is — as the operator (upper-cased), consuming it and
parsing the right operand; no membership in `IN`/`LIKE`/`ILIKE` is
checked. -/
theorem claim_C7_global_takes_next_token
    (fuel pos : Nat) (input : List Char) (st st1 st2 st3 st4 : LexState)
    (expr right : Expr) (tk tk2 : Token)
    (hleft : parseAddSubExpr (fuel + 1) pos input st = some (Except.ok (expr, st1)))
    (htok : st1.lastToken = some tk)
    (hkind : tk.kind = TokenKeyword)
    (hstr : toUpperStr tk.str = "GLOBAL")
    (hadv : advance input st1 = some st2)
    (htk2 : st2.lastToken = some tk2)
    (hadv2 : advance input st2 = some st3)
    (hright : parseAddSubExpr fuel (pPos st3) input st3 = some (Except.ok (right, st4))) :
    parseCompareExpr (fuel + 2) pos input st =
      some (Except.ok (Expr.binary expr (toUpperStr tk2.str) right false true, st4)) := by
  have hmtk : ∀ k : String, matchTokenKind k st1 = (TokenKeyword == k) := by
    intro k; simp [matchTokenKind, htok, hkind]
  have hmkw : ∀ kw : String, matchKeyword kw st1 = eqFold tk.str kw := by
    intro kw; simp [matchKeyword, htok, hkind]
  have heq : ∀ kw : String, eqFold tk.str kw = ("GLOBAL" == toUpperStr kw) := by
    intro kw; simp [eqFold, hstr]
  have hlb : matchTokenKind "[" st1 = false := by rw [hmtk]; decide
  have hop : isCompareOpMatch st1 = false := by
    simp only [isCompareOpMatch, hmtk, hmkw, heq]; decide
  have hglob : matchKeyword KeywordGlobal st1 = true := by rw [hmkw, heq]; decide
  have e2 : fuel + 2 = (fuel + 1) + 1 := rfl
  rw [e2]
  simp only [parseCompareExpr, hleft, pbind, hlb, hop, hglob, hadv, abind,
    Bool.false_eq_true, if_false, if_true, compareTail, htk2, hadv2, hright, pok]

set_option maxHeartbeats 4000000 in
/-- Witness for the amended claim C7, at the concrete input `a GLOBAL IN b`. -/
theorem claim_C7_witness :
    parseCompareExpr 64 0 (String.toList "a GLOBAL IN b")
        ⟨1, some ⟨0, 1, TokenIdent, "a", 0, false⟩⟩ =
      some (Except.ok
        (Expr.binary (Expr.identE ⟨0, 1, "a"⟩) "IN" (Expr.identE ⟨12, 13, "b"⟩) false true,
         ⟨13, none⟩)) :=
  claim_C7_global_takes_next_token 62 0 (String.toList "a GLOBAL IN b")
    ⟨1, some ⟨0, 1, TokenIdent, "a", 0, false⟩⟩
    ⟨8, some ⟨2, 8, TokenKeyword, "GLOBAL", 0, false⟩⟩
    ⟨11, some ⟨9, 11, TokenKeyword, "IN", 0, false⟩⟩
    ⟨13, some ⟨12, 13, TokenIdent, "b", 0, false⟩⟩ ⟨13, none⟩
    (Expr.identE ⟨0, 1, "a"⟩) (Expr.identE ⟨12, 13, "b"⟩)
    ⟨2, 8, TokenKeyword, "GLOBAL", 0, false⟩ ⟨9, 11, TokenKeyword, "IN", 0, false⟩
    rfl rfl rfl (by decide) rfl rfl rfl rfl
